import Mathlib

/-!
Shallow embedding of the campus-vault personal finance web application
(src/app.py).  Users register, authenticate, record income/expense
transactions, view a monthly summary, adjust a budget threshold, delete
transactions they own and export their history.

Monetary amounts (Python floats holding currency values) are embedded as
rational numbers; timestamps as a record of calendar fields ordered
lexicographically, matching `datetime` comparison.  The relational store
is a pair of lists kept in insertion (= primary key) order; the
`ORDER BY date DESC` of the two read queries is embedded as a stable
sort with the reversed date order.
-/

namespace CampusVault

/-- Embedding of a `datetime` value: calendar fields, compared lexicographically. -/
structure DateTime where
  year : Nat
  month : Nat
  day : Nat
  hour : Nat
  minute : Nat
  second : Nat
deriving DecidableEq, Repr

/-- Lexicographic `datetime` order on (year, month, day, hour, minute, second). -/
def dateLe (a b : DateTime) : Bool :=
  decide (a.year < b.year) ||
    (decide (a.year = b.year) && (decide (a.month < b.month) ||
      (decide (a.month = b.month) && (decide (a.day < b.day) ||
        (decide (a.day = b.day) && (decide (a.hour < b.hour) ||
          (decide (a.hour = b.hour) && (decide (a.minute < b.minute) ||
            (decide (a.minute = b.minute) && decide (a.second ≤ b.second))))))))))

/-- Row of the `user` table: `id, username UNIQUE, password (hash), budget`. -/
structure User where
  id : Nat
  username : String
  password : String
  budget : Rat
deriving DecidableEq, Repr

/-- Row of the `transaction` table:
`id, description, amount, type, date, user_id FK`. -/
structure Transaction where
  id : Nat
  description : String
  amount : Rat
  type : String
  date : DateTime
  user_id : Nat
deriving DecidableEq, Repr

/-- The relational store, rows in primary-key (insertion) order. -/
structure Store where
  users : List User
  transactions : List Transaction
deriving DecidableEq, Repr

/-- The werkzeug password-hashing collaborator (external to the repository):
`gen` is `generate_password_hash`, `check hash plaintext` is
`check_password_hash`. -/
structure HashPrimitive where
  gen : String → String
  check : String → String → Bool

/-- Flash message carrying its category, as in `flash(msg, category)`. -/
inductive Flash
  | error (msg : String)
  | success (msg : String)
deriving DecidableEq, Repr

/-- Descending-by-date order on transactions (`Transaction.date.desc()`). -/
def dateGe (a b : Transaction) : Prop := dateLe b.date a.date = true

instance : DecidableRel dateGe := fun a b => instDecidableEqBool (dateLe b.date a.date) true

/-- Stable sort of the rows by descending date, as in `ORDER BY date DESC`. -/
def sortByDateDesc (ts : List Transaction) : List Transaction :=
  List.insertionSort dateGe ts

/-- Zero-pad a number to two digits (`%m`, `%d`, and the cents of `%.2f`). -/
def pad2 (n : Nat) : String :=
  if n < 10 then "0" ++ toString n else toString n

/-- Zero-pad a number to four digits (`%Y`). -/
def pad4 (n : Nat) : String :=
  if n < 10 then "000" ++ toString n
  else if n < 100 then "00" ++ toString n
  else if n < 1000 then "0" ++ toString n
  else toString n

/-- Date formatting with `strftime` and format string `%Y-%m-%d`. -/
def formatDate (d : DateTime) : String :=
  pad4 d.year ++ "-" ++ pad2 d.month ++ "-" ++ pad2 d.day

/-- Number of cents of an amount, rounding to the nearest hundredth. -/
def toCents (q : Rat) : Nat := (round (|q| * 100)).toNat

/-- Insert a thousands separator after every third digit of a reversed
digit list. -/
def groupRev : List Char → Nat → List Char
  | [], _ => []
  | c :: cs, n =>
    if n = 3 then ',' :: c :: groupRev cs 1 else c :: groupRev cs (n + 1)

/-- Decimal rendering of a natural number with thousands separators. -/
def commaSep (n : Nat) : String :=
  String.mk ((groupRev (toString n).data.reverse 0).reverse)

/-- Python format `:,.2f`: sign, comma-grouped units, two decimals. -/
def formatCurrency (q : Rat) : String :=
  (if q < 0 then "-" else "") ++ commaSep (toCents q / 100) ++ "." ++ pad2 (toCents q % 100)

/-- Python format `:.2f`: sign, units, two decimals (no grouping). -/
def formatAmount2 (q : Rat) : String :=
  (if q < 0 then "-" else "") ++ toString (toCents q / 100) ++ "." ++ pad2 (toCents q % 100)

/-- Budget-exceeded alert text of `add_transaction`. -/
def budgetExceededMsg (b : Rat) : String :=
  "⚠️ Alert! You exceeded your budget of ₦" ++ formatCurrency b ++ "!"

/-- Income acknowledgment text of `add_transaction`. -/
def incomeAddedMsg (a : Rat) : String :=
  "🤑 Nice! Income of ₦" ++ formatCurrency a ++ " added."

/-- Generic success text of `add_transaction`. -/
def transactionAddedMsg : String := "Transaction added successfully."

/-- Confirmation text of the settings update. -/
def budgetUpdatedMsg (b : Rat) : String :=
  "✅ Budget updated to ₦" ++ formatCurrency b

/-- Flash shown when registering an existing username. -/
def usernameExistsMsg : String := "Username already exists."

/-- Generic flash shown on any login failure. -/
def loginFailedMsg : String := "Login Failed. Check your spelling."

/-- Default budget of a freshly created `User` row. -/
def defaultBudget : Rat := 5000

/-- Next autoincrement primary key for the `user` table. -/
def nextUserId (s : Store) : Nat := (s.users.map User.id).foldr Nat.max 0 + 1

/-- Next autoincrement primary key for the `transaction` table. -/
def nextTransactionId (s : Store) : Nat :=
  (s.transactions.map Transaction.id).foldr Nat.max 0 + 1

/-- Lookup of a user row by id, as done by `User.query.get` and the
`current_user` loader. -/
def getUser (s : Store) (uid : Nat) : Option User :=
  s.users.find? (fun w => w.id == uid)

/-- Payload rendered by the dashboard (`index`). -/
structure Summary where
  transactions : List Transaction
  income : Rat
  expense : Rat
  balance : Rat
deriving DecidableEq, Repr

/-- The `index` route: fetch the user's transactions ordered by date
descending, keep only the current month and year, and total income,
expense and balance over the kept rows. -/
def index (s : Store) (uid : Nat) (now : DateTime) : Summary :=
  let all_transactions :=
    sortByDateDesc (s.transactions.filter (fun t => t.user_id == uid))
  let monthly_transactions :=
    all_transactions.filter (fun t => t.date.month == now.month && t.date.year == now.year)
  let total_income :=
    ((monthly_transactions.filter (fun t => t.type == "Income")).map Transaction.amount).sum
  let total_expense :=
    ((monthly_transactions.filter (fun t => t.type == "Expense")).map Transaction.amount).sum
  { transactions := monthly_transactions
    income := total_income
    expense := total_expense
    balance := total_income - total_expense }

/-- Outcome of the `login` route. -/
inductive LoginOutcome
  | loggedIn (u : User)
  | invalidCredentials (msg : String)
deriving DecidableEq, Repr

/-- The `login` route (POST): first user with the given username, then
hash verification; on success the session holds the user's id. -/
def login (hp : HashPrimitive) (s : Store) (username password : String) :
    LoginOutcome × Option Nat :=
  match s.users.find? (fun w => w.username == username) with
  | some user =>
    if hp.check user.password password then (LoginOutcome.loggedIn user, some user.id)
    else (LoginOutcome.invalidCredentials loginFailedMsg, none)
  | none => (LoginOutcome.invalidCredentials loginFailedMsg, none)

/-- Outcome of the `register` route. -/
inductive RegisterOutcome
  | duplicateUsername (msg : String)
  | registered (u : User)
deriving DecidableEq, Repr

/-- Result of the `register` route: outcome, store after, session after. -/
structure RegisterResponse where
  outcome : RegisterOutcome
  store : Store
  session : Option Nat
deriving DecidableEq, Repr

/-- The `register` route (POST): reject an existing username, otherwise
create a user holding the hashed password and the default budget,
persist it and log the new user in. -/
def register (hp : HashPrimitive) (s : Store) (username password : String) :
    RegisterResponse :=
  if (s.users.find? (fun w => w.username == username)).isSome then
    { outcome := RegisterOutcome.duplicateUsername usernameExistsMsg
      store := s
      session := none }
  else
    let hashed_pw := hp.gen password
    let new_user : User :=
      { id := nextUserId s, username := username, password := hashed_pw
        budget := defaultBudget }
    { outcome := RegisterOutcome.registered new_user
      store := { s with users := s.users ++ [new_user] }
      session := some new_user.id }

/-- The `add_transaction` route: pick exactly one flash (expense over
budget, then income, then generic), then persist the new row owned by
the current user with the server-assigned timestamp. -/
def add_transaction (s : Store) (u : User) (now : DateTime)
    (description : String) (amount : Rat) (ty : String) : Flash × Store :=
  let fl :=
    if ty = "Expense" ∧ u.budget < amount then Flash.error (budgetExceededMsg u.budget)
    else if ty = "Income" then Flash.success (incomeAddedMsg amount)
    else Flash.success transactionAddedMsg
  let new_trans : Transaction :=
    { id := nextTransactionId s, description := description, amount := amount
      type := ty, date := now, user_id := u.id }
  (fl, { s with transactions := s.transactions ++ [new_trans] })

/-- HTTP outcome of the `delete_transaction` route. -/
inductive DeleteResult
  | notFound
  | redirect
deriving DecidableEq, Repr

/-- The `delete_transaction` route: 404 when the id is absent, silent
skip when the requester is not the owner, deletion when it is; both
found cases redirect to the dashboard. -/
def delete_transaction (s : Store) (uid : Nat) (tid : Nat) :
    DeleteResult × Store :=
  match s.transactions.find? (fun t => t.id == tid) with
  | none => (DeleteResult.notFound, s)
  | some t =>
    if t.user_id = uid then
      (DeleteResult.redirect,
        { s with transactions := s.transactions.eraseP (fun t2 => t2.id == tid) })
    else (DeleteResult.redirect, s)

/-- The `settings` route (POST): overwrite the current user's budget and
flash the confirmation. -/
def settings_post (s : Store) (uid : Nat) (newBudget : Rat) : Flash × Store :=
  (Flash.success (budgetUpdatedMsg newBudget),
    { s with users := s.users.map (fun w => if w.id = uid then { w with budget := newBudget } else w) })

/-- The `settings` route (GET): renders the current user, no state change. -/
def settings_get (s : Store) (u : User) : Store × User := (s, u)

/-- One data row of the exported statement. -/
def exportRow (t : Transaction) : List String :=
  [formatDate t.date, t.description, t.type, formatAmount2 t.amount]

/-- Header row of the exported statement. -/
def exportHeader : List String := ["Date", "Description", "Type", "Amount (NGN)"]

/-- The `export_transactions` route: the user's full history ordered by
date descending, serialized as header row plus one row per transaction. -/
def export_transactions (s : Store) (uid : Nat) : List (List String) :=
  let transactions :=
    sortByDateDesc (s.transactions.filter (fun t => t.user_id == uid))
  exportHeader :: transactions.map exportRow

/-- Totality of `dateLe`. -/
theorem dateLe_total (x y : DateTime) : dateLe x y = true ∨ dateLe y x = true := by
  simp only [dateLe, Bool.or_eq_true, Bool.and_eq_true, decide_eq_true_eq]
  omega

/-- Transitivity of `dateLe`. -/
theorem dateLe_trans {x y z : DateTime} (h1 : dateLe x y = true)
    (h2 : dateLe y z = true) : dateLe x z = true := by
  simp only [dateLe, Bool.or_eq_true, Bool.and_eq_true, decide_eq_true_eq] at h1 h2 ⊢
  omega

instance : IsTotal Transaction dateGe where
  total a b := dateLe_total b.date a.date

instance : IsTrans Transaction dateGe where
  trans _ _ _ h1 h2 := dateLe_trans h2 h1

/-- Sorting does not change the set of rows. -/
theorem mem_sortByDateDesc {l : List Transaction} {t : Transaction} :
    t ∈ sortByDateDesc l ↔ t ∈ l :=
  List.mem_insertionSort dateGe

/-- Sorting permutes the rows. -/
theorem perm_sortByDateDesc (l : List Transaction) : (sortByDateDesc l).Perm l :=
  List.perm_insertionSort dateGe l

/-- The sorted rows are in descending date order. -/
theorem sorted_sortByDateDesc (l : List Transaction) :
    List.Sorted dateGe (sortByDateDesc l) :=
  List.sorted_insertionSort dateGe l

/-- The dashboard's transaction list, unfolded. -/
theorem index_transactions_def (s : Store) (uid : Nat) (now : DateTime) :
    (index s uid now).transactions =
      (sortByDateDesc (s.transactions.filter (fun t => t.user_id == uid))).filter
        (fun t => t.date.month == now.month && t.date.year == now.year) := rfl

/-- Membership in the dashboard's transaction list. -/
theorem mem_index_transactions {s : Store} {uid : Nat} {now : DateTime}
    {t : Transaction} :
    t ∈ (index s uid now).transactions ↔
      t ∈ s.transactions ∧ t.user_id = uid ∧ t.date.month = now.month ∧
        t.date.year = now.year := by
  rw [index_transactions_def]
  simp [List.mem_filter, mem_sortByDateDesc, and_assoc]

end CampusVault

namespace CampusVault

/-- C1: `GetMonthlySummary` (the dashboard handler `index`) returns exactly
the stored transactions of the user whose timestamp's month and year equal
the current month and year; `total_income` is the sum of the amounts of the
returned transactions with category Income, `total_expense` the sum of those
with category Expense, and `balance = total_income - total_expense` exactly;
with no transaction in the current month all three totals are zero and the
returned list is empty. -/
theorem monthly_summary_spec (s : Store) (uid : Nat) (now : DateTime) :
    (∀ t : Transaction, t ∈ (index s uid now).transactions ↔
      t ∈ s.transactions ∧ t.user_id = uid ∧ t.date.month = now.month ∧
        t.date.year = now.year) ∧
    (index s uid now).income =
      (((index s uid now).transactions.filter (fun t => t.type == "Income")).map
        Transaction.amount).sum ∧
    (index s uid now).expense =
      (((index s uid now).transactions.filter (fun t => t.type == "Expense")).map
        Transaction.amount).sum ∧
    (index s uid now).balance = (index s uid now).income - (index s uid now).expense ∧
    ((∀ t ∈ s.transactions, t.user_id = uid →
        ¬(t.date.month = now.month ∧ t.date.year = now.year)) →
      (index s uid now).transactions = [] ∧ (index s uid now).income = 0 ∧
        (index s uid now).expense = 0 ∧ (index s uid now).balance = 0) := by
  refine ⟨fun t => mem_index_transactions, rfl, rfl, rfl, fun h => ?_⟩
  have hnil : (index s uid now).transactions = [] := by
    rw [List.eq_nil_iff_forall_not_mem]
    intro t ht
    rw [mem_index_transactions] at ht
    exact h t ht.1 ht.2.1 ⟨ht.2.2.1, ht.2.2.2⟩
  have hi : (index s uid now).income =
      (((index s uid now).transactions.filter (fun t => t.type == "Income")).map
        Transaction.amount).sum := rfl
  have he : (index s uid now).expense =
      (((index s uid now).transactions.filter (fun t => t.type == "Expense")).map
        Transaction.amount).sum := rfl
  have hb : (index s uid now).balance =
      (index s uid now).income - (index s uid now).expense := rfl
  have h0i : (index s uid now).income = 0 := by rw [hi, hnil]; simp
  have h0e : (index s uid now).expense = 0 := by rw [he, hnil]; simp
  exact ⟨hnil, h0i, h0e, by rw [hb, h0i, h0e]; norm_num⟩

/-- C1 witness: a concrete user whose only stored transaction is in another
month sees the empty summary with zero totals. -/
theorem monthly_summary_spec_witness :
    (∀ t ∈ (Store.mk [User.mk 1 "amaka" "h" 5000]
        [Transaction.mk 1 "book" 20 "Expense" (DateTime.mk 2026 9 3 0 0 0) 1]).transactions,
      t.user_id = 1 → ¬(t.date.month = 10 ∧ t.date.year = 2026)) ∧
    (index (Store.mk [User.mk 1 "amaka" "h" 5000]
        [Transaction.mk 1 "book" 20 "Expense" (DateTime.mk 2026 9 3 0 0 0) 1]) 1
        (DateTime.mk 2026 10 12 9 0 0)).transactions = [] ∧
    (index (Store.mk [User.mk 1 "amaka" "h" 5000]
        [Transaction.mk 1 "book" 20 "Expense" (DateTime.mk 2026 9 3 0 0 0) 1]) 1
        (DateTime.mk 2026 10 12 9 0 0)).income = 0 ∧
    (index (Store.mk [User.mk 1 "amaka" "h" 5000]
        [Transaction.mk 1 "book" 20 "Expense" (DateTime.mk 2026 9 3 0 0 0) 1]) 1
        (DateTime.mk 2026 10 12 9 0 0)).expense = 0 ∧
    (index (Store.mk [User.mk 1 "amaka" "h" 5000]
        [Transaction.mk 1 "book" 20 "Expense" (DateTime.mk 2026 9 3 0 0 0) 1]) 1
        (DateTime.mk 2026 10 12 9 0 0)).balance = 0 := by
  have h : ∀ t ∈ (Store.mk [User.mk 1 "amaka" "h" 5000]
      [Transaction.mk 1 "book" 20 "Expense" (DateTime.mk 2026 9 3 0 0 0) 1]).transactions,
      t.user_id = 1 → ¬(t.date.month = 10 ∧ t.date.year = 2026) := by
    intro t ht
    simp only [List.mem_singleton] at ht
    subst ht
    norm_num
  have hc := (monthly_summary_spec (Store.mk [User.mk 1 "amaka" "h" 5000]
      [Transaction.mk 1 "book" 20 "Expense" (DateTime.mk 2026 9 3 0 0 0) 1]) 1
      (DateTime.mk 2026 10 12 9 0 0)).2.2.2.2 h
  exact ⟨h, hc.1, hc.2.1, hc.2.2.1, hc.2.2.2⟩

/-- The flash picked by `add_transaction`, unfolded. -/
theorem add_transaction_fst (s : Store) (u : User) (now : DateTime)
    (d : String) (amt : Rat) (ty : String) :
    (add_transaction s u now d amt ty).1 =
      if ty = "Expense" ∧ u.budget < amt then Flash.error (budgetExceededMsg u.budget)
      else if ty = "Income" then Flash.success (incomeAddedMsg amt)
      else Flash.success transactionAddedMsg := rfl

/-- C2: deleting an unknown transaction id fails with NotFound; deleting a
transaction owned by someone else is a silent no-op leaving the store
unmodified; deleting an owned transaction removes exactly that row; both
found cases redirect to the dashboard. -/
theorem delete_transaction_spec (s : Store) (uid tid : Nat) :
    ((∀ t ∈ s.transactions, t.id ≠ tid) →
      delete_transaction s uid tid = (DeleteResult.notFound, s)) ∧
    (∀ t : Transaction, s.transactions.find? (fun t2 => t2.id == tid) = some t →
      t.user_id ≠ uid →
      delete_transaction s uid tid = (DeleteResult.redirect, s)) ∧
    (∀ t : Transaction, s.transactions.find? (fun t2 => t2.id == tid) = some t →
      t.user_id = uid →
      delete_transaction s uid tid =
        (DeleteResult.redirect,
          { s with transactions := s.transactions.eraseP (fun t2 => t2.id == tid) })) := by
  refine ⟨fun h => ?_, fun t hf hne => ?_, fun t hf he => ?_⟩
  · have hnone : s.transactions.find? (fun t2 => t2.id == tid) = none := by
      rw [List.find?_eq_none]
      intro x hx
      simpa using h x hx
    simp [delete_transaction, hnone]
  · simp [delete_transaction, hf, hne]
  · simp [delete_transaction, hf, he]

/-- C2 witness: requesting deletion of a transaction owned by user 2 as
user 1 redirects and leaves the store unchanged. -/
theorem delete_transaction_spec_witness :
    delete_transaction
        (Store.mk [User.mk 1 "amaka" "h" 5000]
          [Transaction.mk 1 "book" 20 "Expense" (DateTime.mk 2026 10 3 0 0 0) 2]) 1 1 =
      (DeleteResult.redirect,
        Store.mk [User.mk 1 "amaka" "h" 5000]
          [Transaction.mk 1 "book" 20 "Expense" (DateTime.mk 2026 10 3 0 0 0) 2]) :=
  (delete_transaction_spec
      (Store.mk [User.mk 1 "amaka" "h" 5000]
        [Transaction.mk 1 "book" 20 "Expense" (DateTime.mk 2026 10 3 0 0 0) 2]) 1 1).2.1
    (Transaction.mk 1 "book" 20 "Expense" (DateTime.mk 2026 10 3 0 0 0) 2) rfl (by decide)

/-- C4: `add_transaction` never modifies the `user` table (in particular the
stored budget), and always appends the new transaction row for the current
user, even in the branch where the budget-exceeded warning is flashed. -/
theorem add_transaction_frame (s : Store) (u : User) (now : DateTime)
    (d : String) (amt : Rat) (ty : String) :
    (add_transaction s u now d amt ty).2.users = s.users ∧
    (add_transaction s u now d amt ty).2.transactions =
      s.transactions ++ [Transaction.mk (nextTransactionId s) d amt ty now u.id] ∧
    (ty = "Expense" ∧ u.budget < amt →
      (add_transaction s u now d amt ty).1 = Flash.error (budgetExceededMsg u.budget)) := by
  refine ⟨rfl, rfl, fun h => ?_⟩
  rw [add_transaction_fst, if_pos h]

/-- C4 witness: a user with budget 5000 adding an expense of 6000 gets the
budget-exceeded warning while the row is still persisted and the user
table is untouched. -/
theorem add_transaction_frame_witness :
    (add_transaction (Store.mk [User.mk 1 "amaka" "h" 5000] [])
        (User.mk 1 "amaka" "h" 5000) (DateTime.mk 2026 10 12 9 0 0)
        "trip" 6000 "Expense").2.users = [User.mk 1 "amaka" "h" 5000] ∧
    (add_transaction (Store.mk [User.mk 1 "amaka" "h" 5000] [])
        (User.mk 1 "amaka" "h" 5000) (DateTime.mk 2026 10 12 9 0 0)
        "trip" 6000 "Expense").2.transactions =
      [Transaction.mk 1 "trip" 6000 "Expense" (DateTime.mk 2026 10 12 9 0 0) 1] ∧
    (add_transaction (Store.mk [User.mk 1 "amaka" "h" 5000] [])
        (User.mk 1 "amaka" "h" 5000) (DateTime.mk 2026 10 12 9 0 0)
        "trip" 6000 "Expense").1 = Flash.error (budgetExceededMsg 5000) := by
  have hc := add_transaction_frame (Store.mk [User.mk 1 "amaka" "h" 5000] [])
    (User.mk 1 "amaka" "h" 5000) (DateTime.mk 2026 10 12 9 0 0) "trip" 6000 "Expense"
  exact ⟨hc.1, hc.2.1, hc.2.2 ⟨rfl, by norm_num⟩⟩

/-- C6: `login` succeeds exactly when the username lookup finds a user and
hash verification of the password against that user's stored hash succeeds;
every failure, whether the username is unknown or the password wrong,
produces the same generic invalid-credentials outcome and no session. -/
theorem login_spec (hp : HashPrimitive) (s : Store) (username password : String) :
    (∀ u : User, (login hp s username password).1 = LoginOutcome.loggedIn u ↔
      (s.users.find? (fun w => w.username == username) = some u ∧
        hp.check u.password password = true)) ∧
    ((∀ u : User, s.users.find? (fun w => w.username == username) = some u →
        hp.check u.password password = false) →
      login hp s username password =
        (LoginOutcome.invalidCredentials loginFailedMsg, none)) := by
  constructor
  · intro u
    cases hf : s.users.find? (fun w => w.username == username) with
    | none => simp [login, hf]
    | some v =>
      by_cases hc : hp.check v.password password = true
      · simp only [login, hf, if_pos hc, Option.some.injEq, LoginOutcome.loggedIn.injEq]
        exact ⟨fun h => ⟨h, h ▸ hc⟩, fun h => h.1⟩
      · simp only [login, hf, if_neg hc, Option.some.injEq]
        constructor
        · intro h
          exact absurd h (by simp)
        · rintro ⟨rfl, h⟩
          exact absurd h hc
  · intro h
    cases hf : s.users.find? (fun w => w.username == username) with
    | none => simp [login, hf]
    | some v =>
      have hcv : hp.check v.password password = false := h v hf
      simp [login, hf, hcv]

/-- C6 witness: with one stored user, logging in with a wrong password
yields the generic invalid-credentials outcome and no session. -/
theorem login_spec_witness :
    login (HashPrimitive.mk (fun p => "h:" ++ p) (fun h p => h == "h:" ++ p))
        (Store.mk [User.mk 1 "amaka" "h:pw" 5000] []) "amaka" "bad" =
      (LoginOutcome.invalidCredentials loginFailedMsg, none) := by
  have hf : (Store.mk [User.mk 1 "amaka" "h:pw" 5000]
      ([] : List Transaction)).users.find? (fun w => w.username == "amaka") =
      some (User.mk 1 "amaka" "h:pw" 5000) := rfl
  refine (login_spec (HashPrimitive.mk (fun p => "h:" ++ p) (fun h p => h == "h:" ++ p))
      (Store.mk [User.mk 1 "amaka" "h:pw" 5000] []) "amaka" "bad").2 ?_
  intro u hu
  rw [hf, Option.some.injEq] at hu
  subst hu
  decide

/-- C5: registering an existing username fails with the duplicate-username
flash and leaves the whole store unchanged with no session; a fresh
username creates a user carrying the hashed password and the default
budget 5000, appends it to the store without touching transactions, and
logs that user in; the stored password is the hash, not the plaintext. -/
theorem register_spec (hp : HashPrimitive) (s : Store) (username password : String) :
    ((∃ w ∈ s.users, w.username = username) →
      register hp s username password =
        RegisterResponse.mk (RegisterOutcome.duplicateUsername usernameExistsMsg) s none) ∧
    ((∀ w ∈ s.users, w.username ≠ username) →
      register hp s username password =
        RegisterResponse.mk
          (RegisterOutcome.registered
            (User.mk (nextUserId s) username (hp.gen password) defaultBudget))
          (Store.mk
            (s.users ++ [User.mk (nextUserId s) username (hp.gen password) defaultBudget])
            s.transactions)
          (some (nextUserId s))) ∧
    (hp.gen password ≠ password → ∀ u : User,
      (register hp s username password).outcome = RegisterOutcome.registered u →
      u.password ≠ password) := by
  refine ⟨fun h => ?_, fun h => ?_, fun hgen u hout => ?_⟩
  · obtain ⟨w, hw, hwu⟩ := h
    have hsome : (s.users.find? (fun w => w.username == username)).isSome = true :=
      List.find?_isSome.mpr ⟨w, hw, by simp [hwu]⟩
    simp [register, hsome]
  · have hnone : s.users.find? (fun w => w.username == username) = none := by
      rw [List.find?_eq_none]
      intro x hx
      simpa using h x hx
    simp [register, hnone]
  · by_cases hdup : (s.users.find? (fun w => w.username == username)).isSome = true
    · rw [show (register hp s username password).outcome =
          RegisterOutcome.duplicateUsername usernameExistsMsg by
        simp [register, hdup]] at hout
      exact absurd hout (by simp)
    · rw [show (register hp s username password).outcome =
          RegisterOutcome.registered
            (User.mk (nextUserId s) username (hp.gen password) defaultBudget) by
        simp [register, hdup]] at hout
      rw [RegisterOutcome.registered.injEq] at hout
      rw [← hout]
      exact hgen

/-- C5 witness: re-registering the username of the single stored account
fails with the duplicate flash and changes nothing, while the hash of a
registered password is never stored as the plaintext. -/
theorem register_spec_witness :
    register (HashPrimitive.mk (fun p => "h:" ++ p) (fun h p => h == "h:" ++ p))
        (Store.mk [User.mk 1 "amaka" "h:pw" 5000] []) "amaka" "pw2" =
      RegisterResponse.mk (RegisterOutcome.duplicateUsername usernameExistsMsg)
        (Store.mk [User.mk 1 "amaka" "h:pw" 5000] []) none ∧
    (∀ u : User,
      (register (HashPrimitive.mk (fun p => "h:" ++ p) (fun h p => h == "h:" ++ p))
          (Store.mk [User.mk 1 "amaka" "h:pw" 5000] []) "ben" "pw2").outcome =
        RegisterOutcome.registered u → u.password ≠ "pw2") := by
  constructor
  · exact (register_spec (HashPrimitive.mk (fun p => "h:" ++ p) (fun h p => h == "h:" ++ p))
      (Store.mk [User.mk 1 "amaka" "h:pw" 5000] []) "amaka" "pw2").1
      ⟨User.mk 1 "amaka" "h:pw" 5000, by simp, rfl⟩
  · exact (register_spec (HashPrimitive.mk (fun p => "h:" ++ p) (fun h p => h == "h:" ++ p))
      (Store.mk [User.mk 1 "amaka" "h:pw" 5000] []) "ben" "pw2").2.2 (by decide)

/-- Looking up the current user after a settings update sees the new budget. -/
theorem budget_after_settings (s : Store) (uid : Nat) (b : Rat) (u' : User)
    (h : getUser (settings_post s uid b).2 uid = some u') : u'.budget = b := by
  have hf : (settings_post s uid b).2.users.find? (fun w => w.id == uid) = some u' := h
  have hmem : u' ∈ (settings_post s uid b).2.users := List.mem_of_find?_eq_some hf
  have hid := List.find?_some hf
  simp only [beq_iff_eq] at hid
  simp only [settings_post] at hmem
  rw [List.mem_map] at hmem
  obtain ⟨w, hw, hwe⟩ := hmem
  by_cases hwid : w.id = uid
  · rw [if_pos hwid] at hwe
    rw [← hwe]
  · rw [if_neg hwid] at hwe
    subst hwe
    exact absurd hid hwid

/-- C9: the settings update flashes the confirmation carrying the new
budget, rewrites exactly the current user's budget (all other user fields,
all other users and all transactions unchanged), later lookups of the user
see the new budget and a later `add_transaction` compares expenses against
it; the GET variant changes no state. -/
theorem settings_spec (s : Store) (uid : Nat) (b : Rat) (u : User) :
    (settings_post s uid b).1 = Flash.success (budgetUpdatedMsg b) ∧
    (settings_post s uid b).2.transactions = s.transactions ∧
    (settings_post s uid b).2.users =
      s.users.map (fun w => if w.id = uid then { w with budget := b } else w) ∧
    (∀ w ∈ s.users, w.id = uid →
      User.mk w.id w.username w.password b ∈ (settings_post s uid b).2.users) ∧
    (∀ w ∈ s.users, w.id ≠ uid → w ∈ (settings_post s uid b).2.users) ∧
    (∀ u' : User, getUser (settings_post s uid b).2 uid = some u' → u'.budget = b) ∧
    (∀ (u' : User) (now : DateTime) (d : String) (amt : Rat),
      getUser (settings_post s uid b).2 uid = some u' → b < amt →
      (add_transaction (settings_post s uid b).2 u' now d amt "Expense").1 =
        Flash.error (budgetExceededMsg b)) ∧
    settings_get s u = (s, u) := by
  refine ⟨rfl, rfl, rfl, fun w hw hid => ?_, fun w hw hid => ?_,
    fun u' h => budget_after_settings s uid b u' h, fun u' now d amt hget hlt => ?_, rfl⟩
  · show User.mk w.id w.username w.password b ∈
      s.users.map (fun w => if w.id = uid then { w with budget := b } else w)
    exact List.mem_map.mpr ⟨w, hw, by rw [if_pos hid]⟩
  · show w ∈
      s.users.map (fun w => if w.id = uid then { w with budget := b } else w)
    exact List.mem_map.mpr ⟨w, hw, by rw [if_neg hid]⟩
  · have hb := budget_after_settings s uid b u' hget
    rw [add_transaction_fst, if_pos ⟨rfl, by rw [hb]; exact hlt⟩, hb]

/-- C9 witness: after the budget is set to 3000 the stored user carries
budget 3000 and an expense of 3000.01 is compared against the new value,
flashing the exceeded-budget warning. -/
theorem settings_spec_witness :
    (User.mk 1 "amaka" "h" 3000).budget = 3000 ∧
    (add_transaction (settings_post (Store.mk [User.mk 1 "amaka" "h" 5000] []) 1 3000).2
        (User.mk 1 "amaka" "h" 3000) (DateTime.mk 2026 10 12 9 0 0) "d" 3000.01
        "Expense").1 = Flash.error (budgetExceededMsg 3000) := by
  have hc := settings_spec (Store.mk [User.mk 1 "amaka" "h" 5000] []) 1 3000
    (User.mk 1 "amaka" "h" 5000)
  exact ⟨hc.2.2.2.2.2.1 (User.mk 1 "amaka" "h" 3000) rfl,
    hc.2.2.2.2.2.2.1 (User.mk 1 "amaka" "h" 3000) (DateTime.mk 2026 10 12 9 0 0) "d"
      3000.01 rfl (by norm_num)⟩

/-- C3: exactly one flash is picked per add, by mutually exclusive checks
in order: the budget-exceeded warning carrying the stored budget when an
expense strictly exceeds it, else the income acknowledgment carrying the
amount, else the generic success message; after the budget is set to 3000,
an expense of 3000.01 triggers the warning and an expense of exactly 3000
does not. -/
theorem alert_spec (s : Store) (now : DateTime) (d : String) :
    (∀ (u : User) (amt : Rat) (ty : String),
      (ty = "Expense" ∧ u.budget < amt →
        (add_transaction s u now d amt ty).1 = Flash.error (budgetExceededMsg u.budget)) ∧
      (ty = "Income" →
        (add_transaction s u now d amt ty).1 = Flash.success (incomeAddedMsg amt)) ∧
      (ty ≠ "Income" → ¬(ty = "Expense" ∧ u.budget < amt) →
        (add_transaction s u now d amt ty).1 = Flash.success transactionAddedMsg)) ∧
    (∀ (uid : Nat) (u' : User),
      getUser (settings_post s uid 3000).2 uid = some u' →
      (add_transaction (settings_post s uid 3000).2 u' now d 3000.01 "Expense").1 =
        Flash.error (budgetExceededMsg 3000) ∧
      (add_transaction (settings_post s uid 3000).2 u' now d 3000 "Expense").1 =
        Flash.success transactionAddedMsg) := by
  constructor
  · intro u amt ty
    refine ⟨fun h => ?_, fun h => ?_, fun h1 h2 => ?_⟩
    · rw [add_transaction_fst, if_pos h]
    · subst h
      rw [add_transaction_fst, if_neg (fun hc => absurd hc.1 (by decide)), if_pos rfl]
    · rw [add_transaction_fst, if_neg h2, if_neg h1]
  · intro uid u' hget
    have hb := budget_after_settings s uid 3000 u' hget
    constructor
    · rw [add_transaction_fst, if_pos ⟨rfl, by rw [hb]; norm_num⟩, hb]
    · rw [add_transaction_fst, if_neg (fun hc => absurd (hb ▸ hc.2) (by norm_num)),
        if_neg (by decide : ¬("Expense" : String) = "Income")]

/-- C3 witness: with the budget stored as 3000, adding an expense of
3000.01 flashes the exceeded-budget warning and adding an expense of
exactly 3000 flashes the generic success message. -/
theorem alert_spec_witness :
    (add_transaction (settings_post (Store.mk [User.mk 1 "amaka" "h" 5000] []) 1 3000).2
        (User.mk 1 "amaka" "h" 3000) (DateTime.mk 2026 10 12 9 0 0) "lunch" 3000.01
        "Expense").1 = Flash.error (budgetExceededMsg 3000) ∧
    (add_transaction (settings_post (Store.mk [User.mk 1 "amaka" "h" 5000] []) 1 3000).2
        (User.mk 1 "amaka" "h" 3000) (DateTime.mk 2026 10 12 9 0 0) "lunch" 3000
        "Expense").1 = Flash.success transactionAddedMsg :=
  (alert_spec (Store.mk [User.mk 1 "amaka" "h" 5000] []) (DateTime.mk 2026 10 12 9 0 0)
      "lunch").2 1 (User.mk 1 "amaka" "h" 3000) rfl

/-- C7: the export is the fixed header row followed by one formatted row
per owned transaction of the full history (not filtered by month), in
descending date order; with no owned transactions only the header remains. -/
theorem export_spec (s : Store) (uid : Nat) :
    export_transactions s uid =
      exportHeader ::
        (sortByDateDesc (s.transactions.filter (fun t => t.user_id == uid))).map exportRow ∧
    exportHeader = ["Date", "Description", "Type", "Amount (NGN)"] ∧
    (∀ t : Transaction,
      t ∈ sortByDateDesc (s.transactions.filter (fun t2 => t2.user_id == uid)) ↔
        t ∈ s.transactions ∧ t.user_id = uid) ∧
    List.Sorted dateGe
      (sortByDateDesc (s.transactions.filter (fun t => t.user_id == uid))) ∧
    (∀ t : Transaction, exportRow t =
      [formatDate t.date, t.description, t.type, formatAmount2 t.amount]) ∧
    ((∀ t ∈ s.transactions, t.user_id ≠ uid) →
      export_transactions s uid = [exportHeader]) := by
  refine ⟨rfl, rfl, fun t => ?_, sorted_sortByDateDesc _, fun t => rfl, fun h => ?_⟩
  · rw [mem_sortByDateDesc]
    simp [List.mem_filter]
  · have hnil : s.transactions.filter (fun t => t.user_id == uid) = [] := by
      rw [List.filter_eq_nil_iff]
      intro t ht
      simpa using h t ht
    show exportHeader ::
        (sortByDateDesc (s.transactions.filter (fun t => t.user_id == uid))).map exportRow =
      [exportHeader]
    rw [hnil]
    rfl

/-- C7 witness: a user owning no transactions exports only the header row. -/
theorem export_spec_witness :
    export_transactions
        (Store.mk [User.mk 1 "amaka" "h" 5000]
          [Transaction.mk 1 "book" 20 "Expense" (DateTime.mk 2026 10 3 0 0 0) 2]) 1 =
      [exportHeader] :=
  (export_spec
      (Store.mk [User.mk 1 "amaka" "h" 5000]
        [Transaction.mk 1 "book" 20 "Expense" (DateTime.mk 2026 10 3 0 0 0) 2]) 1).2.2.2.2.2
    (by decide)

/-- The dashboard's income total, unfolded. -/
theorem index_income_def (s : Store) (uid : Nat) (now : DateTime) :
    (index s uid now).income =
      ((((sortByDateDesc (s.transactions.filter (fun t => t.user_id == uid))).filter
          (fun t => t.date.month == now.month && t.date.year == now.year)).filter
          (fun t => t.type == "Income")).map Transaction.amount).sum := rfl

/-- The dashboard's expense total, unfolded. -/
theorem index_expense_def (s : Store) (uid : Nat) (now : DateTime) :
    (index s uid now).expense =
      ((((sortByDateDesc (s.transactions.filter (fun t => t.user_id == uid))).filter
          (fun t => t.date.month == now.month && t.date.year == now.year)).filter
          (fun t => t.type == "Expense")).map Transaction.amount).sum := rfl

/-- Sorting does not change a filtered amount total. -/
theorem sum_amount_sortByDateDesc (p q : Transaction → Bool) (l : List Transaction) :
    ((((sortByDateDesc l).filter p).filter q).map Transaction.amount).sum =
      (((l.filter p).filter q).map Transaction.amount).sum :=
  List.Perm.sum_eq (List.Perm.map Transaction.amount
    (List.Perm.filter q (List.Perm.filter p (perm_sortByDateDesc l))))

/-- The dashboard's income total over the unsorted rows. -/
theorem index_income_unsorted (s : Store) (uid : Nat) (now : DateTime) :
    (index s uid now).income =
      ((((s.transactions.filter (fun t => t.user_id == uid)).filter
          (fun t => t.date.month == now.month && t.date.year == now.year)).filter
          (fun t => t.type == "Income")).map Transaction.amount).sum := by
  rw [index_income_def]
  exact sum_amount_sortByDateDesc _ _ _

/-- The dashboard's expense total over the unsorted rows. -/
theorem index_expense_unsorted (s : Store) (uid : Nat) (now : DateTime) :
    (index s uid now).expense =
      ((((s.transactions.filter (fun t => t.user_id == uid)).filter
          (fun t => t.date.month == now.month && t.date.year == now.year)).filter
          (fun t => t.type == "Expense")).map Transaction.amount).sum := by
  rw [index_expense_def]
  exact sum_amount_sortByDateDesc _ _ _

/-- Appending a row of a different category does not change the filtered
rows of that category. -/
theorem filter_chain_append (l : List Transaction) (nt : Transaction) (uid : Nat)
    (now : DateTime) (c : String) (hty : (nt.type == c) = false) :
    (((l ++ [nt]).filter (fun t => t.user_id == uid)).filter
        (fun t => t.date.month == now.month && t.date.year == now.year)).filter
        (fun t => t.type == c) =
      ((l.filter (fun t => t.user_id == uid)).filter
        (fun t => t.date.month == now.month && t.date.year == now.year)).filter
        (fun t => t.type == c) := by
  have hsingle : (([nt].filter (fun t => t.user_id == uid)).filter
      (fun t => t.date.month == now.month && t.date.year == now.year)).filter
      (fun t => t.type == c) = [] := by
    rw [List.filter_eq_nil_iff]
    intro a ha
    rw [List.mem_filter, List.mem_filter] at ha
    have ham : a = nt := by simpa using ha.1.1
    subst ham
    simp [hty]
  rw [List.filter_append, List.filter_append, List.filter_append, hsingle,
    List.append_nil]

/-- C10: adding a transaction whose category is neither Income nor Expense
still persists the row with that category verbatim, flashes the generic
success message, and the row is counted in neither monthly total, so the
reported income, expense and balance are unchanged. -/
theorem unknown_category_spec (s : Store) (u : User) (now : DateTime)
    (d : String) (amt : Rat) (ty : String) (h1 : ty ≠ "Income") (h2 : ty ≠ "Expense") :
    (add_transaction s u now d amt ty).1 = Flash.success transactionAddedMsg ∧
    (add_transaction s u now d amt ty).2.transactions =
      s.transactions ++ [Transaction.mk (nextTransactionId s) d amt ty now u.id] ∧
    (∀ (uid : Nat) (now2 : DateTime),
      (index (add_transaction s u now d amt ty).2 uid now2).income =
        (index s uid now2).income ∧
      (index (add_transaction s u now d amt ty).2 uid now2).expense =
        (index s uid now2).expense ∧
      (index (add_transaction s u now d amt ty).2 uid now2).balance =
        (index s uid now2).balance) := by
  refine ⟨?_, rfl, fun uid now2 => ?_⟩
  · rw [add_transaction_fst, if_neg (fun hc => h2 hc.1), if_neg h1]
  · have hi : (index (add_transaction s u now d amt ty).2 uid now2).income =
        (index s uid now2).income := by
      rw [index_income_unsorted, index_income_unsorted]
      show (((((s.transactions ++
            [Transaction.mk (nextTransactionId s) d amt ty now u.id]).filter
            (fun t => t.user_id == uid)).filter
            (fun t => t.date.month == now2.month && t.date.year == now2.year)).filter
            (fun t => t.type == "Income")).map Transaction.amount).sum =
          ((((s.transactions.filter (fun t => t.user_id == uid)).filter
            (fun t => t.date.month == now2.month && t.date.year == now2.year)).filter
            (fun t => t.type == "Income")).map Transaction.amount).sum
      rw [filter_chain_append _ _ _ _ _ (by simp [h1])]
    have he : (index (add_transaction s u now d amt ty).2 uid now2).expense =
        (index s uid now2).expense := by
      rw [index_expense_unsorted, index_expense_unsorted]
      show (((((s.transactions ++
            [Transaction.mk (nextTransactionId s) d amt ty now u.id]).filter
            (fun t => t.user_id == uid)).filter
            (fun t => t.date.month == now2.month && t.date.year == now2.year)).filter
            (fun t => t.type == "Expense")).map Transaction.amount).sum =
          ((((s.transactions.filter (fun t => t.user_id == uid)).filter
            (fun t => t.date.month == now2.month && t.date.year == now2.year)).filter
            (fun t => t.type == "Expense")).map Transaction.amount).sum
      rw [filter_chain_append _ _ _ _ _ (by simp [h2])]
    have hbL : (index (add_transaction s u now d amt ty).2 uid now2).balance =
        (index (add_transaction s u now d amt ty).2 uid now2).income -
          (index (add_transaction s u now d amt ty).2 uid now2).expense := rfl
    have hbR : (index s uid now2).balance =
        (index s uid now2).income - (index s uid now2).expense := rfl
    exact ⟨hi, he, by rw [hbL, hbR, hi, he]⟩

/-- C10 witness: adding a transaction of category Other persists it, the
generic flash is emitted and the dashboard totals are unchanged. -/
theorem unknown_category_spec_witness :
    (add_transaction (Store.mk [User.mk 1 "amaka" "h" 5000] [])
        (User.mk 1 "amaka" "h" 5000) (DateTime.mk 2026 10 12 9 0 0)
        "gift" 40 "Other").1 = Flash.success transactionAddedMsg ∧
    (add_transaction (Store.mk [User.mk 1 "amaka" "h" 5000] [])
        (User.mk 1 "amaka" "h" 5000) (DateTime.mk 2026 10 12 9 0 0)
        "gift" 40 "Other").2.transactions =
      [Transaction.mk 1 "gift" 40 "Other" (DateTime.mk 2026 10 12 9 0 0) 1] ∧
    (index (add_transaction (Store.mk [User.mk 1 "amaka" "h" 5000] [])
        (User.mk 1 "amaka" "h" 5000) (DateTime.mk 2026 10 12 9 0 0)
        "gift" 40 "Other").2 1 (DateTime.mk 2026 10 12 10 0 0)).balance =
      (index (Store.mk [User.mk 1 "amaka" "h" 5000] []) 1
        (DateTime.mk 2026 10 12 10 0 0)).balance := by
  have hc := unknown_category_spec (Store.mk [User.mk 1 "amaka" "h" 5000] [])
    (User.mk 1 "amaka" "h" 5000) (DateTime.mk 2026 10 12 9 0 0) "gift" 40 "Other"
    (by decide) (by decide)
  exact ⟨hc.1, hc.2.1, (hc.2.2 1 (DateTime.mk 2026 10 12 10 0 0)).2.2⟩

/-- Claimed invariant of a persisted transaction row: positive amount and
a category among exactly the two values Income and Expense. -/
def TxnInv (t : Transaction) : Prop :=
  0 < t.amount ∧ (t.type = "Income" ∨ t.type = "Expense")

/-- C8 counterexample: starting from a store satisfying the claimed
invariant, one `add_transaction` call (the only creator of transactions)
persists a row with a negative amount and the category Other, so the
invariant does not hold of every reachable store. -/
theorem txn_invariant_counterexample :
    (∀ t ∈ (Store.mk [User.mk 1 "amaka" "h" 5000] []).transactions, TxnInv t) ∧
    (add_transaction (Store.mk [User.mk 1 "amaka" "h" 5000] [])
        (User.mk 1 "amaka" "h" 5000) (DateTime.mk 2026 10 12 9 0 0)
        "snack" (-50) "Other").2.transactions =
      [Transaction.mk 1 "snack" (-50) "Other" (DateTime.mk 2026 10 12 9 0 0) 1] ∧
    ¬ (0 < (Transaction.mk 1 "snack" (-50) "Other"
        (DateTime.mk 2026 10 12 9 0 0) 1).amount) ∧
    (Transaction.mk 1 "snack" (-50) "Other"
        (DateTime.mk 2026 10 12 9 0 0) 1).type ≠ "Income" ∧
    (Transaction.mk 1 "snack" (-50) "Other"
        (DateTime.mk 2026 10 12 9 0 0) 1).type ≠ "Expense" ∧
    ¬ TxnInv (Transaction.mk 1 "snack" (-50) "Other"
        (DateTime.mk 2026 10 12 9 0 0) 1) := by
  refine ⟨by simp, rfl, by norm_num, by decide, by decide, fun h => ?_⟩
  exact absurd h.1 (by norm_num)

/-- C8 amended: every transaction row carries exactly one owning user id,
assigned as the current user's id at creation, and the positive-amount,
two-category invariant is preserved by every operation provided the add
inputs themselves satisfy it (the code performs no validation of amount or
category): adding with a positive amount and category Income or Expense,
deleting, updating the budget and registering all map stores satisfying
the invariant to stores satisfying it. -/
theorem txn_invariant_amended (s : Store) (u : User) (now : DateTime)
    (d : String) (amt : Rat) (ty : String) (uid tid : Nat) (b : Rat)
    (hp : HashPrimitive) (un pw : String)
    (hs : ∀ t ∈ s.transactions, TxnInv t)
    (hamt : 0 < amt) (hty : ty = "Income" ∨ ty = "Expense") :
    (∀ t ∈ (add_transaction s u now d amt ty).2.transactions, TxnInv t) ∧
    (∀ t ∈ (add_transaction s u now d amt ty).2.transactions,
      t ∈ s.transactions ∨ t.user_id = u.id) ∧
    (∀ t ∈ (delete_transaction s uid tid).2.transactions, TxnInv t) ∧
    (∀ t ∈ (settings_post s uid b).2.transactions, TxnInv t) ∧
    (∀ t ∈ (register hp s un pw).store.transactions, TxnInv t) := by
  have hadd : (add_transaction s u now d amt ty).2.transactions =
      s.transactions ++ [Transaction.mk (nextTransactionId s) d amt ty now u.id] := rfl
  have hdel : ∀ x ∈ (delete_transaction s uid tid).2.transactions,
      x ∈ s.transactions := by
    unfold delete_transaction
    split
    · exact fun x hx => hx
    · split
      · exact fun x hx => List.mem_of_mem_eraseP hx
      · exact fun x hx => hx
  have hreg : (register hp s un pw).store.transactions = s.transactions := by
    unfold register
    split <;> rfl
  refine ⟨fun t ht => ?_, fun t ht => ?_, fun t ht => hs t (hdel t ht),
    fun t ht => hs t ht, fun t ht => ?_⟩
  · rw [hadd, List.mem_append] at ht
    rcases ht with h | h
    · exact hs t h
    · rw [List.mem_singleton] at h
      subst h
      exact ⟨hamt, hty⟩
  · rw [hadd, List.mem_append] at ht
    rcases ht with h | h
    · exact Or.inl h
    · rw [List.mem_singleton] at h
      subst h
      exact Or.inr rfl
  · rw [hreg] at ht
    exact hs t ht

/-- C8 amended witness: the row created by adding an income of 40 to an
empty valid store satisfies the invariant. -/
theorem txn_invariant_amended_witness :
    TxnInv (Transaction.mk 1 "wage" 40 "Income" (DateTime.mk 2026 10 12 9 0 0) 1) :=
  (txn_invariant_amended (Store.mk [User.mk 1 "amaka" "h" 5000] [])
      (User.mk 1 "amaka" "h" 5000) (DateTime.mk 2026 10 12 9 0 0)
      "wage" 40 "Income" 1 1 3000
      (HashPrimitive.mk (fun p => "h:" ++ p) (fun h p => h == "h:" ++ p)) "ben" "pw"
      (by simp) (by norm_num) (Or.inl rfl)).1
    (Transaction.mk 1 "wage" 40 "Income" (DateTime.mk 2026 10 12 9 0 0) 1)
    (by show Transaction.mk 1 "wage" 40 "Income" (DateTime.mk 2026 10 12 9 0 0) 1 ∈
          [Transaction.mk 1 "wage" 40 "Income" (DateTime.mk 2026 10 12 9 0 0) 1]
        exact List.mem_singleton.mpr rfl)

end CampusVault
